import Mathlib

/-!
Verification of the robot-fleet configuration pipeline (`app/main.py`):
a shallow embedding of the startup-time validation, secret-resolution and
asset-checking code, together with theorems about the claims of its
specification.
-/

set_option autoImplicit false
set_option linter.unreachableTactic false
set_option linter.unusedTactic false

namespace RobotFleet

/-- JSON-like dynamic value, the shape of parsed configuration trees.
Numbers are modelled as rationals. -/
inductive JValue where
  | null : JValue
  | bool : Bool → JValue
  | num : Rat → JValue
  | str : String → JValue
  | arr : List JValue → JValue
  | obj : List (String × JValue) → JValue
deriving Repr, Inhabited

/-- Python truthiness of a `JValue` (`if not x:`). -/
def JValue.truthy : JValue → Bool
  | .null => false
  | .bool b => b
  | .num q => q != 0
  | .str s => s ≠ ""
  | .arr l => !l.isEmpty
  | .obj l => !l.isEmpty

/-- `d.get(k)` on a Python dict modelled as an association list. -/
def dictGet (d : List (String × JValue)) (k : String) : Option JValue :=
  (d.find? (fun kv => kv.1 = k)).map (fun kv => kv.2)

/-- `d[k] = v` on a Python dict: replace the first binding of `k`,
or append when absent. -/
def dictSet : List (String × JValue) → String → JValue → List (String × JValue)
  | [], k, v => [(k, v)]
  | (k', v') :: rest, k, v =>
      if k' = k then (k, v) :: rest else (k', v') :: dictSet rest k v

/-- Filesystem metadata of one path: regular-file flag, readability, size. -/
structure FileInfo where
  isFile : Bool
  readable : Bool
  size : Nat
deriving Repr

/-- Pure model of the filesystem seen by the asset checker:
`files p = none` means the path does not exist. -/
structure FS where
  files : String → Option FileInfo

/-- `validate_asset_file` (main.py:73): returns whether the check passed
and whether the zero-length warning was logged. -/
def validate_asset_file (fs : FS) (p : String) : Bool × Bool :=
  match fs.files p with
  | none => (false, false)
  | some fi =>
      if fi.isFile && fi.readable then (true, fi.size = 0)
      else (false, false)

/-- The asset check as applied to an arbitrary config value: the Python
code passes `sensor["bit_mask"]` straight to `os.path.exists`, and a
non-string argument raises inside `validate_asset_file`'s `try`,
which returns `False`. -/
def validateAssetV (fs : FS) (p : JValue) : Bool :=
  match p with
  | .str s => (validate_asset_file fs s).1
  | _ => false

/-- The body of the asset retry loop, recursing on the number `n` of
loop iterations still to run (`n = rc - attempt`); `n = 0` is the loop
ending without `break`. -/
def assetLoopGo (fs : FS) (p : JValue) (b rc : Nat) :
    Nat → Nat → Bool × List Nat × Nat
  | _, 0 => (true, [], 0)
  | attempt, n + 1 =>
      if validateAssetV fs p then (true, [], 1)
      else if attempt < rc - 1 then
        let r := assetLoopGo fs p b rc (attempt + 1) n
        (r.1, b * 2 ^ attempt :: r.2.1, r.2.2 + 1)
      else (false, [], 1)

/-- The asset retry loop of `validate_sensor_config` (main.py:168-178)
from a given attempt index: result, backoff sleeps performed, number of
check attempts made. -/
def assetLoop (fs : FS) (p : JValue) (b rc attempt : Nat) : Bool × List Nat × Nat :=
  assetLoopGo fs p b rc attempt (rc - attempt)

/-- External world seen by `read_secret`: the mounted secret store
(`/run/secrets/<robot_id>`, already JSON-decoded; `none` = file absent),
the process environment, and the behaviour of `json.loads` on strings
(`none` = parse failure). -/
structure SecretEnv where
  secretStore : String → Option (List (String × List (String × JValue)))
  envVars : String → Option String
  parseJson : String → Option JValue

/-- The fallback environment-variable name built at main.py:102. -/
def envKey (robot_id sensor_name secret_key : String) : String :=
  "SECRET_" ++ robot_id.toUpper ++ "_" ++ sensor_name.toUpper ++ "_" ++ secret_key.toUpper

/-- `sensor_name in secret_data and secret_key in secret_data[sensor_name]`
(main.py:96), returning the stored value when both keys exist. -/
def storeLookup (doc : List (String × List (String × JValue)))
    (sensor_name secret_key : String) : Option JValue :=
  match (doc.find? (fun kv => kv.1 = sensor_name)).map (fun kv => kv.2) with
  | none => none
  | some m => (m.find? (fun kv => kv.1 = secret_key)).map (fun kv => kv.2)

/-- One run of the retry loop of `read_secret` (main.py:89-122) starting at
a given attempt index: result (`.error ()` models the final `RuntimeError`),
the backoff sleeps performed, and the number of attempts made.  A store
document that exists but lacks the requested keys raises `KeyError` inside
the `try` (main.py:99), which skips the environment fallback and lands in
the `except` retry branch. -/
def readSecretAux (env : SecretEnv) (robot_id sensor_name secret_key : String)
    (b rc attempt : Nat) : Except Unit JValue × List Nat × Nat :=
  if _h : attempt < rc then
    match env.secretStore robot_id with
    | some doc =>
        match storeLookup doc sensor_name secret_key with
        | some v => (.ok v, [], 1)
        | none =>
            if attempt < rc - 1 then
              let r := readSecretAux env robot_id sensor_name secret_key b rc (attempt + 1)
              (r.1, b * 2 ^ attempt :: r.2.1, r.2.2 + 1)
            else
              let r := readSecretAux env robot_id sensor_name secret_key b rc (attempt + 1)
              (r.1, r.2.1, r.2.2 + 1)
    | none =>
        match env.envVars (envKey robot_id sensor_name secret_key) with
        | some s =>
            if s ≠ "" then ((env.parseJson s).elim (.ok (.str s)) .ok, [], 1)
            else
              if attempt < rc - 1 then
                let r := readSecretAux env robot_id sensor_name secret_key b rc (attempt + 1)
                (r.1, b * 2 ^ attempt :: r.2.1, r.2.2 + 1)
              else
                let r := readSecretAux env robot_id sensor_name secret_key b rc (attempt + 1)
                (r.1, r.2.1, r.2.2 + 1)
        | none =>
            if attempt < rc - 1 then
              let r := readSecretAux env robot_id sensor_name secret_key b rc (attempt + 1)
              (r.1, b * 2 ^ attempt :: r.2.1, r.2.2 + 1)
            else
              let r := readSecretAux env robot_id sensor_name secret_key b rc (attempt + 1)
              (r.1, r.2.1, r.2.2 + 1)
  else (.error (), [], 0)
termination_by rc - attempt
decreasing_by all_goals omega

/-- `read_secret(robot_id, sensor_name, secret_key, retry_count, retry_delay)`
(main.py:87). -/
def read_secret (env : SecretEnv) (robot_id sensor_name secret_key : String)
    (retry_count retry_delay : Nat) : Except Unit JValue × List Nat × Nat :=
  readSecretAux env robot_id sensor_name secret_key retry_delay retry_count 0

/-- The exponential backoff schedule of a loop of `m` attempts with base
delay `b`: sleeps after attempts `0 .. m-2`. -/
def backoffs (b m : Nat) : List Nat :=
  (List.range (m - 1)).map (fun i => b * 2 ^ i)

/-- Prefix test on character lists (the meaning of Python
`s.startswith(pre)`). -/
def listStartsWith : List Char → List Char → Bool
  | _, [] => true
  | [], _ :: _ => false
  | c :: cs, p :: ps => c = p && listStartsWith cs ps

/-- `s.startswith(pre)`. -/
def strStartsWith (s pre : String) : Bool :=
  listStartsWith s.data pre.data

/-- Split a character list at every separator occurrence, the chunk read
so far accumulated in reverse. -/
def splitCharsAux (sep : Char) : List Char → List Char → List String
  | [], acc => [String.mk acc.reverse]
  | c :: cs, acc =>
      if c = sep then String.mk acc.reverse :: splitCharsAux sep cs []
      else splitCharsAux sep cs (c :: acc)

/-- Python `s.split(":")`. -/
def splitColon (s : String) : List String :=
  splitCharsAux ':' s.data []

/-- Rejoin parts with `":"`. -/
def joinColon : List String → String
  | [] => ""
  | [s] => s
  | s :: rest => String.mk (s.data ++ ':' :: (joinColon rest).data)

/-- Python `s.split(":", 3)`: at most four parts, the remainder of the
string kept intact in the last one. -/
def splitColon3 (s : String) : List String :=
  let l := splitColon s
  if l.length ≤ 4 then l
  else l.take 3 ++ [joinColon (l.drop 3)]

/-- The errors the pipeline can raise.  `typeError` stands for the Python
runtime errors (`AttributeError`/`TypeError`) raised when a node that the
code indexes as a dict is not one. -/
inductive PipeErr where
  | missingRobotId
  | noSensors
  | missingType
  | invalidType
  | missingField (f : String)
  | assetFailed
  | malformedSecret (s : String)
  | secretResolveFailed
  | typeError
  | fuelOut
deriving Repr, DecidableEq

/-- `resolve_value` (main.py:127-138): result, sleeps, resolver attempts.
The `context_sensor_name` parameter of the source is unused there and
omitted.  `read_secret` is called with its default
`retry_count=2, retry_delay=5`. -/
def resolve_value (env : SecretEnv) (v : JValue) :
    Except PipeErr JValue × List Nat × Nat :=
  match v with
  | .str s =>
      if strStartsWith s "SECRET:" then
        match splitColon3 s with
        | _ :: rid :: sn :: rest =>
            let sk := rest.headD "wgs84_coordinates"
            let r := read_secret env rid sn sk 2 5
            (r.1.mapError (fun _ => .secretResolveFailed), r.2.1, r.2.2)
        | _ => (.error (.malformedSecret s), [], 0)
      else (.ok v, [], 0)
  | _ => (.ok v, [], 0)

/-- Whether a value is a `SECRET:`-prefixed string, i.e. one on which
`resolve_value` is not the identity. -/
def isSecretStr : JValue → Bool
  | .str s => strStartsWith s "SECRET:"
  | _ => false

mutual
/-- `parse_dict` (main.py:140-146).  In the source, a dict value is first
passed through `resolve_value` and the result walked again; since
`resolve_value` is the identity on every non-`SECRET:` value, that
re-walk is non-structural only for resolved secrets, and `fuel` bounds
exactly those re-walks (the Python original can loop forever on a secret
that resolves to a secret reference). -/
def parse_dict (env : SecretEnv) (fuel : Nat) : JValue → Except PipeErr JValue × List Nat × Nat
  | .obj kvs =>
      let r := parseObjList env fuel kvs
      (r.1.map .obj, r.2.1, r.2.2)
  | .arr l =>
      let r := parseArrList env fuel l
      (r.1.map .arr, r.2.1, r.2.2)
  | v => resolve_value env v
termination_by v => (fuel, sizeOf v)
decreasing_by
  all_goals simp_wf
  all_goals exact Prod.Lex.right _ (by first | (simp +arith; omega) | simp +arith | omega)

/-- The dict comprehension of main.py:142, evaluated left to right,
stopping at the first raised error (sleeps and attempts already made are
kept). -/
def parseObjList (env : SecretEnv) (fuel : Nat) :
    List (String × JValue) → Except PipeErr (List (String × JValue)) × List Nat × Nat
  | [] => (.ok [], [], 0)
  | (k, v) :: rest =>
      if isSecretStr v then
        let r1 := resolve_value env v
        match r1.1 with
        | .error e => (.error e, r1.2.1, r1.2.2)
        | .ok v1 =>
            match fuel with
            | 0 => (.error .fuelOut, r1.2.1, r1.2.2)
            | fuel' + 1 =>
                let r2 := parse_dict env fuel' v1
                match r2.1 with
                | .error e => (.error e, r1.2.1 ++ r2.2.1, r1.2.2 + r2.2.2)
                | .ok v2 =>
                    let r3 := parseObjList env (fuel' + 1) rest
                    (r3.1.map (fun l => (k, v2) :: l),
                     r1.2.1 ++ r2.2.1 ++ r3.2.1, r1.2.2 + r2.2.2 + r3.2.2)
      else
        let r2 := parse_dict env fuel v
        match r2.1 with
        | .error e => (.error e, r2.2.1, r2.2.2)
        | .ok v2 =>
            let r3 := parseObjList env fuel rest
            (r3.1.map (fun l => (k, v2) :: l), r2.2.1 ++ r3.2.1, r2.2.2 + r3.2.2)
termination_by l => (fuel, sizeOf l)
decreasing_by
  all_goals simp_wf
  all_goals first
    | exact Prod.Lex.left _ _ (by omega)
    | exact Prod.Lex.right _ (by first | (simp +arith; omega) | simp +arith | omega)

/-- The list comprehension of main.py:144: items are passed to
`parse_dict` directly (no prior `resolve_value`). -/
def parseArrList (env : SecretEnv) (fuel : Nat) :
    List JValue → Except PipeErr (List JValue) × List Nat × Nat
  | [] => (.ok [], [], 0)
  | v :: rest =>
      let r1 := parse_dict env fuel v
      match r1.1 with
      | .error e => (.error e, r1.2.1, r1.2.2)
      | .ok v1 =>
          let r2 := parseArrList env fuel rest
          (r2.1.map (fun l => v1 :: l), r1.2.1 ++ r2.2.1, r1.2.2 + r2.2.2)
termination_by l => (fuel, sizeOf l)
decreasing_by
  all_goals simp_wf
  all_goals exact Prod.Lex.right _ (by first | (simp +arith; omega) | simp +arith | omega)
end

/-- `resolve_secrets_in_config` (main.py:124-156).  Only the `sensors`
entry is walked; each sensor is first asked for `sensor.get("type")`
(main.py:151), which raises on a non-dict node. -/
def resolveSensorList (env : SecretEnv) (fuel : Nat) :
    List JValue → Except PipeErr (List JValue) × List Nat × Nat
  | [] => (.ok [], [], 0)
  | s :: rest =>
      match s with
      | .obj d =>
          let r1 := parse_dict env fuel (.obj d)
          match r1.1 with
          | .error e => (.error e, r1.2.1, r1.2.2)
          | .ok s' =>
              let r2 := resolveSensorList env fuel rest
              (r2.1.map (fun l => s' :: l), r1.2.1 ++ r2.2.1, r1.2.2 + r2.2.2)
      | _ => (.error .typeError, [], 0)

/-- `resolve_secrets_in_config(config)` (main.py:124): the config's
`robot_id` is read but unused; when a `sensors` entry exists its elements
are resolved and written back, everything else is untouched. -/
def resolve_secrets_in_config (env : SecretEnv) (fuel : Nat)
    (config : List (String × JValue)) :
    Except PipeErr (List (String × JValue)) × List Nat × Nat :=
  match dictGet config "sensors" with
  | none => (.ok config, [], 0)
  | some (.arr sensors) =>
      let r := resolveSensorList env fuel sensors
      match r.1 with
      | .error e => (.error e, r.2.1, r.2.2)
      | .ok resolved => (.ok (dictSet config "sensors" (.arr resolved)), r.2.1, r.2.2)
  | some _ => (.error .typeError, [], 0)

/-- `validate_sensor_config(sensor, retry_count, retry_delay)`
(main.py:158-200): per-type required-field checks and the asset retry
loop; result plus backoff sleeps performed. -/
def validate_sensor_config (fs : FS) (d : List (String × JValue)) (rc b : Nat) :
    Except PipeErr Unit × List Nat :=
  match dictGet d "type" with
  | some (.str "sensor_a") =>
      match dictGet d "bit_mask" with
      | none => (.error (.missingField "bit_mask"), [])
      | some p =>
          let r := assetLoop fs p b rc 0
          (if r.1 then .ok () else .error .assetFailed, r.2.1)
  | some (.str "sensor_b") =>
      match dictGet d "speed_km_per_h" with
      | none => (.error (.missingField "speed_km_per_h"), [])
      | some _ => (.ok (), [])
  | some (.str "sensor_c") =>
      match dictGet d "field_map" with
      | none => (.error (.missingField "field_map"), [])
      | some p =>
          let r := assetLoop fs p b rc 0
          (if r.1 then .ok () else .error .assetFailed, r.2.1)
  | _ => (.ok (), [])

/-- `sensor_type in {"sensor_a", "sensor_b", "sensor_c"}` (main.py:210):
only equal strings are members. -/
def validSensorType : JValue → Bool
  | .str s => s = "sensor_a" || s = "sensor_b" || s = "sensor_c"
  | _ => false

/-- The per-sensor half of `validate_robot_config` (main.py:212-220):
for each sensor in order, the `type` checks are followed immediately by
`validate_sensor_config` (called with its defaults `3, 5`) before the
next sensor is examined.  A non-dict sensor raises at `sensor.get`. -/
def validateSensors (fs : FS) : List JValue → Except PipeErr Unit × List Nat
  | [] => (.ok (), [])
  | s :: rest =>
      match s with
      | .obj d =>
          match dictGet d "type" with
          | none => (.error .missingType, [])
          | some tv =>
              if tv.truthy then
                if validSensorType tv then
                  let r := validate_sensor_config fs d 3 5
                  match r.1 with
                  | .error e => (.error e, r.2)
                  | .ok () =>
                      let r2 := validateSensors fs rest
                      (r2.1, r.2 ++ r2.2)
                else (.error .invalidType, [])
              else (.error .missingType, [])
      | _ => (.error .typeError, [])

/-- `validate_robot_config(config)` (main.py:202-220): `robot_id`
presence, truthiness of `config.get("sensors", [])`, then the per-sensor
checks. -/
def validate_robot_config (fs : FS) (config : List (String × JValue)) :
    Except PipeErr Unit × List Nat :=
  match dictGet config "robot_id" with
  | none => (.error .missingRobotId, [])
  | some _ =>
      let sensors := (dictGet config "sensors").getD (.arr [])
      if sensors.truthy then
        match sensors with
        | .arr l => validateSensors fs l
        | _ => (.error .typeError, [])
      else (.error .noSensors, [])

/-- The fields of the global `STATE` dict (main.py:22) that the claims
observe.  `sensors` is the stored config value (initially `[]`). -/
structure AppState where
  robot_id : Option JValue
  sensors : JValue
  initialized : Bool
  config_version : Option JValue
  asset_validation_retries : Nat
  errors : Nat
deriving Repr

/-- The initial `STATE` (main.py:22-31). -/
def STATE0 : AppState :=
  { robot_id := none
    sensors := .arr []
    initialized := false
    config_version := none
    asset_validation_retries := 0
    errors := 0 }

/-- Outcome of one run of `startup_event` (main.py:242-277): final state,
result, backoff sleeps in the order they happened (asset-loop sleeps
first, then resolver sleeps), and the number of resolver attempts made. -/
structure StartupResult where
  state : AppState
  result : Except PipeErr Unit
  sleeps : List Nat
  resolverAttempts : Nat
deriving Repr

/-- `startup_event` (main.py:242-277) applied to an already-parsed raw
config: `validate_robot_config` (which performs the asset retry loops and
increments the retry counter once per sleep), then
`resolve_secrets_in_config`, then the `STATE` assignments; any raised
error is recorded and the assignments never run. -/
def startup_event (fs : FS) (env : SecretEnv) (fuel : Nat)
    (raw : List (String × JValue)) : StartupResult :=
  let v := validate_robot_config fs raw
  match v.1 with
  | .error e =>
      { state := { STATE0 with asset_validation_retries := v.2.length, errors := 1 }
        result := .error e
        sleeps := v.2
        resolverAttempts := 0 }
  | .ok () =>
      let r := resolve_secrets_in_config env fuel raw
      match r.1 with
      | .error e =>
          { state := { STATE0 with asset_validation_retries := v.2.length, errors := 1 }
            result := .error e
            sleeps := v.2 ++ r.2.1
            resolverAttempts := r.2.2 }
      | .ok config =>
          { state :=
              { STATE0 with
                asset_validation_retries := v.2.length
                config_version := dictGet config "version"
                robot_id := dictGet config "robot_id"
                sensors := (dictGet config "sensors").getD (.arr [])
                initialized := true }
            result := .ok ()
            sleeps := v.2 ++ r.2.1
            resolverAttempts := r.2.2 }

/-- `health_check` (main.py:294-308): a 503 while not initialized,
otherwise the id and sensor count. -/
def health_check (st : AppState) : Except Nat (Option JValue × Nat) :=
  if st.initialized then
    .ok (st.robot_id, match st.sensors with | .arr l => l.length | _ => 0)
  else .error 503

/-- `SensorA.validate_range` (main.py:40-44). -/
def sensorA_range_ok (v : Rat) : Bool := 0 < v

/-- `SensorB.validate_speed` (main.py:51-55). -/
def sensorB_speed_ok (v : Rat) : Bool := 0 ≤ v

/-- `SensorC.validate_battery` (main.py:62-66). -/
def sensorC_battery_ok (v : Rat) : Bool := 0 ≤ v && v ≤ 100

/-- The per-type numeric constraints of the spec's `SensorSpec` data
model, as a predicate on one sensor node: `sensor_a` has `range > 0`,
`sensor_b` has `speed_km_per_h >= 0`, `sensor_c` has `battery_pct` in
`[0, 100]`. -/
def sensorNumericOk (s : JValue) : Bool :=
  match s with
  | .obj d =>
      match dictGet d "type" with
      | some (.str "sensor_a") =>
          match dictGet d "range" with
          | some (.num q) => sensorA_range_ok q
          | _ => false
      | some (.str "sensor_b") =>
          match dictGet d "speed_km_per_h" with
          | some (.num q) => sensorB_speed_ok q
          | _ => false
      | some (.str "sensor_c") =>
          match dictGet d "battery_pct" with
          | some (.num q) => sensorC_battery_ok q
          | _ => false
      | _ => true
  | _ => true

/-! ### Concrete worlds and inputs used by witnesses and counterexamples -/

/-- A filesystem with no files at all. -/
def fs0 : FS := ⟨fun _ => none⟩

/-- A world with no secret store, no environment variables, and a parser
that always fails. -/
def env0 : SecretEnv := ⟨fun _ => none, fun _ => none, fun _ => none⟩

/-! ### Helper lemmas -/

theorem range_pow_sum (b : Nat) :
    ∀ n, ((List.range n).map (fun i => b * 2 ^ i)).sum = b * (2 ^ n - 1) := by
  intro n
  induction n with
  | zero => simp
  | succ n ih =>
      rw [List.range_succ, List.map_append, List.sum_append, ih]
      have h1 : 1 ≤ 2 ^ n := Nat.one_le_two_pow
      simp only [List.map_cons, List.map_nil, List.sum_cons, List.sum_nil]
      rw [pow_succ, Nat.add_zero, ← Nat.mul_add]
      congr 1
      omega

theorem backoffs_sum (b m : Nat) : (backoffs b m).sum = b * (2 ^ (m - 1) - 1) :=
  range_pow_sum b (m - 1)

/-- Closed form of the failing asset loop body: with the check failing
persistently, `n` remaining iterations sleep `n - 1` times and report
failure after `n` attempts. -/
theorem assetLoopGo_fail (fs : FS) (p : JValue) (b rc : Nat)
    (hf : validateAssetV fs p = false) :
    ∀ n attempt, attempt + n = rc → 0 < n →
      assetLoopGo fs p b rc attempt n =
        (false, (List.range' attempt (n - 1)).map (fun i => b * 2 ^ i), n) := by
  intro n
  induction n with
  | zero => intro attempt h h0; omega
  | succ m ih =>
      intro attempt h _
      rcases Nat.eq_zero_or_pos m with hm | hm
      · subst hm
        unfold assetLoopGo
        rw [hf]
        simp only [Bool.false_eq_true, if_false]
        rw [if_neg (by omega)]
        simp
      · unfold assetLoopGo
        rw [hf]
        simp only [Bool.false_eq_true, if_false]
        rw [if_pos (by omega)]
        rw [ih (attempt + 1) (by omega) hm]
        have h2 : m + 1 - 1 = (m - 1) + 1 := by omega
        rw [h2, List.range'_succ]
        simp only [List.map_cons]

/-- Closed form of the failing asset retry loop, from any starting
attempt index. -/
theorem assetLoop_fail (fs : FS) (p : JValue) (b rc : Nat)
    (hf : validateAssetV fs p = false) :
    ∀ fuel attempt, rc - attempt = fuel + 1 →
      assetLoop fs p b rc attempt =
        (false, (List.range' attempt (rc - 1 - attempt)).map (fun i => b * 2 ^ i),
         rc - attempt) := by
  intro fuel attempt h
  have hgo := assetLoopGo_fail fs p b rc hf (rc - attempt) attempt (by omega) (by omega)
  unfold assetLoop
  rw [hgo]
  have heq : rc - attempt - 1 = rc - 1 - attempt := by omega
  rw [heq]

/-- A resolution attempt fails when either the store document exists but
lacks the requested keys (the `KeyError` path), or there is no store
document and the fallback variable is unset or empty (Python falsiness of
`env_value`). -/
def attemptFails (env : SecretEnv) (rid sn sk : String) : Prop :=
  (∃ doc, env.secretStore rid = some doc ∧ storeLookup doc sn sk = none) ∨
  (env.secretStore rid = none ∧
    (env.envVars (envKey rid sn sk) = none ∨ env.envVars (envKey rid sn sk) = some ""))

/-- Closed form of the failing secret retry loop, from any starting
attempt index. -/
theorem readSecretAux_fail (env : SecretEnv) (rid sn sk : String) (b rc : Nat)
    (hstep : attemptFails env rid sn sk) :
    ∀ fuel attempt, rc - attempt = fuel + 1 →
      readSecretAux env rid sn sk b rc attempt =
        (.error (), (List.range' attempt (rc - 1 - attempt)).map (fun i => b * 2 ^ i),
         rc - attempt) := by
  intro fuel
  induction fuel with
  | zero =>
      intro attempt h
      have hlt : attempt < rc := by omega
      have hlast : ¬ attempt < rc - 1 := by omega
      have hstop : ¬ attempt + 1 < rc := by omega
      have hrec : readSecretAux env rid sn sk b rc (attempt + 1) = (.error (), [], 0) := by
        rw [readSecretAux]; simp [hstop]
      have hn : rc - 1 - attempt = 0 := by omega
      rw [readSecretAux]
      rcases hstep with ⟨doc, hdoc, hmiss⟩ | ⟨hnone, henv⟩
      · simp [hlt, hdoc, hmiss, hlast, hrec, hn, h]
      · rcases henv with henv | henv
        · simp [hlt, hnone, henv, hlast, hrec, hn, h]
        · simp [hlt, hnone, henv, hlast, hrec, hn, h]
  | succ n ih =>
      intro attempt h
      have hlt : attempt < rc := by omega
      have hmid : attempt < rc - 1 := by omega
      have hrec := ih (attempt + 1) (by omega)
      have h2 : rc - 1 - attempt = (rc - 1 - (attempt + 1)) + 1 := by omega
      have h3 : rc - (attempt + 1) + 1 = rc - attempt := by omega
      rw [readSecretAux]
      rcases hstep with ⟨doc, hdoc, hmiss⟩ | ⟨hnone, henv⟩
      · simp only [hlt, dif_pos, hdoc, hmiss, hmid, if_pos, hrec]
        rw [h2, List.range'_succ]
        simp only [List.map_cons]
        rw [h3]
      · rcases henv with henv | henv
        · simp only [hlt, dif_pos, hnone, henv, hmid, if_pos, hrec]
          rw [h2, List.range'_succ]
          simp only [List.map_cons]
          rw [h3]
        · simp only [hlt, dif_pos, hnone, henv, ne_eq, not_true_eq_false,
            Bool.false_eq_true, if_false, hmid, if_pos, hrec]
          rw [h2, List.range'_succ]
          simp only [List.map_cons]
          rw [h3]

/-- A successful environment fallback: no store document, variable
present and non-empty, success on the current attempt with no sleeps. -/
theorem readSecretAux_env_ok (env : SecretEnv) (rid sn sk : String) (b rc attempt : Nat)
    (s : String) (hlt : attempt < rc) (hnone : env.secretStore rid = none)
    (henv : env.envVars (envKey rid sn sk) = some s) (hs : s ≠ "") :
    readSecretAux env rid sn sk b rc attempt =
      ((env.parseJson s).elim (.ok (.str s)) .ok, [], 1) := by
  rw [readSecretAux]
  simp [hlt, hnone, henv, hs]

/-- A successful store lookup: success on the current attempt with no
sleeps, the environment never consulted. -/
theorem readSecretAux_store_ok (env : SecretEnv) (rid sn sk : String) (b rc attempt : Nat)
    (doc : List (String × List (String × JValue))) (v : JValue) (hlt : attempt < rc)
    (hdoc : env.secretStore rid = some doc) (hv : storeLookup doc sn sk = some v) :
    readSecretAux env rid sn sk b rc attempt = (.ok v, [], 1) := by
  rw [readSecretAux]
  simp [hlt, hdoc, hv]

/-- The sleeps of a failing retry loop of `rc` attempts and base delay
`b`, as produced by the closed forms above, are exactly `backoffs b rc`. -/
theorem range'_zero_backoffs (b rc : Nat) :
    (List.range' 0 (rc - 1 - 0)).map (fun i => b * 2 ^ i) = backoffs b rc := by
  rw [backoffs, List.range_eq_range']
  simp

/-! ### C9: the asset check -/

/-- C9: the asset check reports success exactly when the path exists, is
a regular file, and is readable; a zero-length file meeting those
conditions is reported as success together with the warning flag.  The
embedding is a total pure function of the filesystem, so it raises
nothing and writes nothing by construction. -/
theorem C9_asset_check_success_iff (fs : FS) (p : String) :
    ((validate_asset_file fs p).1 = true ↔
      ∃ fi, fs.files p = some fi ∧ fi.isFile = true ∧ fi.readable = true) ∧
    (∀ fi, fs.files p = some fi → fi.isFile = true → fi.readable = true →
      fi.size = 0 → validate_asset_file fs p = (true, true)) := by
  constructor
  · constructor
    · intro htrue
      unfold validate_asset_file at htrue
      cases h : fs.files p with
      | none => rw [h] at htrue; simp at htrue
      | some fi =>
          rw [h] at htrue
          dsimp only at htrue
          by_cases hb : fi.isFile && fi.readable
          · simp only [Bool.and_eq_true] at hb
            exact ⟨fi, rfl, hb.1, hb.2⟩
          · rw [if_neg hb] at htrue
            simp at htrue
    · rintro ⟨fi, hfi, h1, h2⟩
      unfold validate_asset_file
      rw [hfi]
      simp [h1, h2]
  · intro fi hfi hf hr hz
    unfold validate_asset_file
    rw [hfi]
    simp [hf, hr, hz]

/-- A filesystem whose every path is an empty, readable regular file. -/
def fsEmptyFile : FS := ⟨fun _ => some ⟨true, true, 0⟩⟩

/-- Witness for C9: an existing readable zero-length file passes the
check with the warning flag set. -/
theorem C9_asset_check_success_iff_witness :
    validate_asset_file fsEmptyFile "/app/masks/a.bin" = (true, true) :=
  (C9_asset_check_success_iff fsEmptyFile "/app/masks/a.bin").2 ⟨true, true, 0⟩ rfl rfl rfl rfl

/-! ### C5: retry counts and exponential backoff -/

/-- C5: against a persistently failing target, both retry loops with
`max_attempts = m ≥ 1` and `base_delay = b` make exactly `m` attempts,
sleep exactly `m - 1` times, with the sleep after 0-indexed attempt `i`
lasting `b * 2 ^ i` and none after the final attempt, and the total
backoff is `b * (2 ^ (m - 1) - 1)`. -/
theorem C5_retry_backoff_closed_form (fs : FS) (p : JValue) (env : SecretEnv)
    (rid sn sk : String) (m b : Nat) (hm : 1 ≤ m)
    (hasset : validateAssetV fs p = false)
    (hstore : env.secretStore rid = none)
    (henv : env.envVars (envKey rid sn sk) = none) :
    assetLoop fs p b m 0 = (false, backoffs b m, m) ∧
    read_secret env rid sn sk m b = (.error (), backoffs b m, m) ∧
    (backoffs b m).length = m - 1 ∧
    (backoffs b m).sum = b * (2 ^ (m - 1) - 1) := by
  have h1 := assetLoop_fail fs p b m hasset (m - 1) 0 (by omega)
  have h2 := readSecretAux_fail env rid sn sk b m
    (Or.inr ⟨hstore, Or.inl henv⟩) (m - 1) 0 (by omega)
  rw [range'_zero_backoffs] at h1 h2
  simp only [Nat.sub_zero] at h1 h2
  exact ⟨h1, h2, by simp [backoffs], backoffs_sum b m⟩

/-- Witness for C5: with `m = 3`, `b = 5` the loops sleep `5` then `10`
(total `15`) and fail on the third attempt. -/
theorem C5_retry_backoff_closed_form_witness :
    assetLoop fs0 (.str "/x") 5 3 0 = (false, [5, 10], 3) ∧
    read_secret env0 "r" "s" "k" 3 5 = (.error (), [5, 10], 3) ∧
    ([5, 10] : List Nat).length = 2 ∧ ([5, 10] : List Nat).sum = 15 :=
  C5_retry_backoff_closed_form fs0 (.str "/x") env0 "r" "s" "k" 3 5
    (by decide) rfl rfl rfl

/-! ### C10: an empty fallback variable counts as absent -/

/-- C10: when the store document is missing and the fallback variable is
set to the empty string, every attempt fails (`if env_value:` is false on
`""`): the loop sleeps and retries, and the final attempt raises — the
empty string is never returned. -/
theorem C10_empty_env_var_absent (env : SecretEnv) (rid sn sk : String) (m b : Nat)
    (hm : 1 ≤ m) (hstore : env.secretStore rid = none)
    (henv : env.envVars (envKey rid sn sk) = some "") :
    read_secret env rid sn sk m b = (.error (), backoffs b m, m) := by
  have h := readSecretAux_fail env rid sn sk b m
    (Or.inr ⟨hstore, Or.inr henv⟩) (m - 1) 0 (by omega)
  rw [range'_zero_backoffs] at h
  simpa using h

/-- A world with no secret store where every environment variable is set
to the empty string. -/
def envEmptyVar : SecretEnv := ⟨fun _ => none, fun _ => some "", fun _ => none⟩

/-- Witness for C10: two attempts, one sleep of 5, final failure. -/
theorem C10_empty_env_var_absent_witness :
    read_secret envEmptyVar "r1" "s1" "k1" 2 5 = (.error (), [5], 2) :=
  C10_empty_env_var_absent envEmptyVar "r1" "s1" "k1" 2 5 (by decide) rfl rfl

/-! ### C2: store-miss does not fall back to the environment -/

/-- A world whose secret store exists for every robot id but contains
only a sensor named `other`, while every environment variable is set to
`"42"`, which parses to the number 42. -/
def envC2 : SecretEnv :=
  ⟨fun _ => some [("other", [("k", .num 1)])],
   fun _ => some "42",
   fun _ => some (.num 42)⟩

/-- Counterexample to C2: the store document for `r1` exists but has no
`s1`/`k1` entry, and the fallback variable is present and parseable, yet
`read_secret` raises after exhausting its attempts (sleeping once) —
the `KeyError` raised at main.py:99 jumps to the `except` handler, so the
environment fallback on lines 101-108 is never reached in that attempt. -/
theorem C2_no_env_fallback_on_store_miss_cex :
    storeLookup [("other", [("k", .num 1)])] "s1" "k1" = none ∧
    envC2.envVars (envKey "r1" "s1" "k1") = some "42" ∧
    envC2.parseJson "42" = some (.num 42) ∧
    read_secret envC2 "r1" "s1" "k1" 2 5 = (.error (), [5], 2) := by
  refine ⟨rfl, rfl, rfl, ?_⟩
  have h := readSecretAux_fail envC2 "r1" "s1" "k1" 5 2
    (Or.inl ⟨[("other", [("k", .num 1)])], rfl, rfl⟩) 1 0 (by omega)
  rw [range'_zero_backoffs] at h
  exact h

/-- C2 as amended: when the store document exists but lacks the key, the
attempt fails without consulting the environment — the loop retries and
the final attempt raises, whatever the environment holds (the conclusion
does not depend on `env.envVars`); the environment fallback is consulted
only in attempts where no store document exists, and there a present
non-empty variable resolves on that same attempt to its parsed value, or
to the raw string when parsing fails. -/
theorem C2_fallback_order (env : SecretEnv) (rid sn sk : String) (rc b : Nat)
    (hrc : 1 ≤ rc) :
    (∀ doc, env.secretStore rid = some doc → storeLookup doc sn sk = none →
      read_secret env rid sn sk rc b = (.error (), backoffs b rc, rc)) ∧
    (∀ s, env.secretStore rid = none → env.envVars (envKey rid sn sk) = some s →
      s ≠ "" →
      read_secret env rid sn sk rc b = ((env.parseJson s).elim (.ok (.str s)) .ok, [], 1)) := by
  constructor
  · intro doc hdoc hmiss
    have h := readSecretAux_fail env rid sn sk b rc
      (Or.inl ⟨doc, hdoc, hmiss⟩) (rc - 1) 0 (by omega)
    rw [range'_zero_backoffs] at h
    simpa using h
  · intro s hnone henv hs
    exact readSecretAux_env_ok env rid sn sk b rc 0 s (by omega) hnone henv hs

/-- A world with no secret store where every variable holds `"42"`. -/
def envVarOnly : SecretEnv :=
  ⟨fun _ => none, fun _ => some "42", fun _ => some (.num 42)⟩

/-- Witness for the amended C2: with no store document, the variable
resolves on the first attempt to its parsed value. -/
theorem C2_fallback_order_witness :
    read_secret envVarOnly "r1" "s1" "k1" 2 5 = (.ok (.num 42), [], 1) :=
  (C2_fallback_order envVarOnly "r1" "s1" "k1" 2 5 (by decide)).2 "42" rfl rfl (by decide)

/-! ### C7: malformed secret references fail immediately -/

/-- C7: a `SECRET:`-prefixed string that splits into fewer than 3 parts
makes `resolve_value` raise the malformed-reference error at once:
zero resolver attempts, zero backoff sleeps. -/
theorem C7_malformed_secret_immediate (env : SecretEnv) (s : String)
    (hpre : strStartsWith s "SECRET:" = true) (hlen : (splitColon3 s).length < 3) :
    resolve_value env (.str s) = (.error (.malformedSecret s), [], 0) := by
  unfold resolve_value
  dsimp only
  rw [if_pos hpre]
  rcases hsp : splitColon3 s with _ | ⟨p0, _ | ⟨p1, _ | ⟨p2, ps⟩⟩⟩
  · rfl
  · rfl
  · rfl
  · rw [hsp] at hlen
    simp at hlen
    omega

/-- Witness for C7: `"SECRET:onlytwo"` splits into 2 parts and fails
immediately. -/
theorem C7_malformed_secret_immediate_witness :
    splitColon3 "SECRET:onlytwo" = ["SECRET", "onlytwo"] ∧
    resolve_value env0 (.str "SECRET:onlytwo") =
      (.error (.malformedSecret "SECRET:onlytwo"), [], 0) :=
  ⟨by decide, C7_malformed_secret_immediate env0 "SECRET:onlytwo" (by decide) (by decide)⟩

/-! ### C8: resolution on secret-free trees -/

mutual
/-- No string leaf of the value begins with `SECRET:`. -/
def noSecretB : JValue → Bool
  | .str s => !strStartsWith s "SECRET:"
  | .arr l => noSecretArr l
  | .obj l => noSecretObj l
  | _ => true

/-- `noSecretB` over every element of a list. -/
def noSecretArr : List JValue → Bool
  | [] => true
  | v :: rest => noSecretB v && noSecretArr rest

/-- `noSecretB` over every value of an association list. -/
def noSecretObj : List (String × JValue) → Bool
  | [] => true
  | (_, v) :: rest => noSecretB v && noSecretObj rest
end

/-- `resolve_value` is the identity on every value that is not a
`SECRET:`-prefixed string. -/
theorem resolve_value_id (env : SecretEnv) (v : JValue)
    (h : isSecretStr v = false) : resolve_value env v = (.ok v, [], 0) := by
  cases v with
  | str s =>
      have h' : strStartsWith s "SECRET:" = false := h
      unfold resolve_value
      dsimp only
      rw [if_neg (by simp [h'])]
  | null => rfl
  | bool b => rfl
  | num q => rfl
  | arr l => rfl
  | obj l => rfl

/-- A secret-free string leaf is not a secret reference. -/
theorem noSecret_not_secretStr (v : JValue) (h : noSecretB v = true) :
    isSecretStr v = false := by
  cases v with
  | str s =>
      have h' : (!strStartsWith s "SECRET:") = true := h
      show strStartsWith s "SECRET:" = false
      simpa using h'
  | null => rfl
  | bool b => rfl
  | num q => rfl
  | arr l => rfl
  | obj l => rfl

mutual
/-- `parse_dict` is the identity (no sleeps, no resolver attempts) on a
tree with no `SECRET:`-prefixed string leaf. -/
theorem parse_dict_id (env : SecretEnv) (fuel : Nat) (v : JValue)
    (h : noSecretB v = true) : parse_dict env fuel v = (.ok v, [], 0) := by
  match v with
  | .obj kvs =>
      rw [parse_dict, parseObjList_id env fuel kvs (by simpa [noSecretB] using h)]
      rfl
  | .arr l =>
      rw [parse_dict, parseArrList_id env fuel l (by simpa [noSecretB] using h)]
      rfl
  | .null => simp only [parse_dict]; rfl
  | .bool b => simp only [parse_dict]; rfl
  | .num q => simp only [parse_dict]; rfl
  | .str s =>
      simp only [parse_dict]
      exact resolve_value_id env (.str s) (noSecret_not_secretStr (.str s) h)
termination_by (fuel, sizeOf v)
decreasing_by
  all_goals simp_wf
  all_goals exact Prod.Lex.right _ (by first | (simp +arith; omega) | simp +arith | omega)

/-- `parseObjList` is the identity on secret-free association lists. -/
theorem parseObjList_id (env : SecretEnv) (fuel : Nat) (kvs : List (String × JValue))
    (h : noSecretObj kvs = true) : parseObjList env fuel kvs = (.ok kvs, [], 0) := by
  match kvs with
  | [] => rw [parseObjList]
  | (k, v) :: rest =>
      rw [noSecretObj, Bool.and_eq_true] at h
      rw [parseObjList]
      rw [if_neg (by simp [noSecret_not_secretStr v h.1])]
      rw [parse_dict_id env fuel v h.1]
      dsimp only
      rw [parseObjList_id env fuel rest h.2]
      rfl
termination_by (fuel, sizeOf kvs)
decreasing_by
  all_goals simp_wf
  all_goals exact Prod.Lex.right _ (by first | (simp +arith; omega) | simp +arith | omega)

/-- `parseArrList` is the identity on secret-free lists. -/
theorem parseArrList_id (env : SecretEnv) (fuel : Nat) (l : List JValue)
    (h : noSecretArr l = true) : parseArrList env fuel l = (.ok l, [], 0) := by
  match l with
  | [] => rw [parseArrList]
  | v :: rest =>
      rw [noSecretArr, Bool.and_eq_true] at h
      rw [parseArrList]
      rw [parse_dict_id env fuel v h.1]
      dsimp only
      rw [parseArrList_id env fuel rest h.2]
      rfl
termination_by (fuel, sizeOf l)
decreasing_by
  all_goals simp_wf
  all_goals exact Prod.Lex.right _ (by first | (simp +arith; omega) | simp +arith | omega)
end

/-- Writing back the value a key already holds changes nothing. -/
theorem dictSet_self (cfg : List (String × JValue)) (k : String) (v : JValue)
    (h : dictGet cfg k = some v) : dictSet cfg k v = cfg := by
  induction cfg with
  | nil => simp [dictGet] at h
  | cons kv rest ih =>
      obtain ⟨k', v'⟩ := kv
      by_cases hk : k' = k
      · subst hk
        unfold dictGet at h
        rw [List.find?_cons_of_pos _ (by simp)] at h
        have hv : v' = v := by simpa using h
        unfold dictSet
        rw [if_pos rfl, hv]
      · unfold dictGet at h
        rw [List.find?_cons_of_neg _ (by simp [hk])] at h
        unfold dictSet
        rw [if_neg hk, ih h]

/-- Sensor lists of secret-free mapping nodes resolve to themselves. -/
theorem resolveSensorList_id (env : SecretEnv) (fuel : Nat) (l : List JValue)
    (hobj : ∀ s ∈ l, ∃ d, s = .obj d) (h : noSecretArr l = true) :
    resolveSensorList env fuel l = (.ok l, [], 0) := by
  induction l with
  | nil => rfl
  | cons s rest ih =>
      rw [noSecretArr, Bool.and_eq_true] at h
      obtain ⟨d, hd⟩ := hobj s (List.mem_cons_self s rest)
      subst hd
      rw [resolveSensorList]
      dsimp only
      rw [parse_dict_id env fuel (.obj d) h.1]
      dsimp only
      rw [ih (fun x hx => hobj x (List.mem_cons_of_mem _ hx)) h.2]
      rfl

/-- A config whose `sensors` entry holds a non-mapping node and which
contains no `SECRET:` string anywhere. -/
def cfg8 : List (String × JValue) := [("sensors", .arr [.str "x"])]

/-- Counterexample to C8 as stated: `cfg8` contains no `SECRET:`-prefixed
string, yet resolution raises (`sensor.get` on the non-dict sensor at
main.py:151) instead of returning the tree unchanged. -/
theorem C8_resolve_noop_cex :
    noSecretObj cfg8 = true ∧
    resolve_secrets_in_config env0 0 cfg8 = (.error .typeError, [], 0) :=
  ⟨rfl, rfl⟩

/-- Resolution of a config whose `sensors` list holds only secret-free
mapping nodes returns the config unchanged. -/
theorem resolve_ok_of_plain (env : SecretEnv) (fuel : Nat)
    (cfg : List (String × JValue)) (l : List JValue)
    (hl : dictGet cfg "sensors" = some (.arr l))
    (hobj : ∀ s ∈ l, ∃ d, s = .obj d) (hsec : noSecretArr l = true) :
    resolve_secrets_in_config env fuel cfg = (.ok cfg, [], 0) := by
  unfold resolve_secrets_in_config
  rw [hl]
  dsimp only
  rw [resolveSensorList_id env fuel l hobj hsec]
  dsimp only
  rw [dictSet_self cfg "sensors" (.arr l) hl]

/-- C8 as amended: on a configuration whose `sensors` entry is absent, or
is a sequence of mapping nodes containing no `SECRET:`-prefixed string,
resolution returns the configuration deep-equal to its input, with no
sleeps and no resolver attempts (a non-mapping sensor instead raises, as
the counterexample shows). -/
theorem C8_resolve_noop (env : SecretEnv) (fuel : Nat)
    (cfg : List (String × JValue)) :
    (dictGet cfg "sensors" = none →
      resolve_secrets_in_config env fuel cfg = (.ok cfg, [], 0)) ∧
    (∀ l, dictGet cfg "sensors" = some (.arr l) →
      (∀ s ∈ l, ∃ d, s = .obj d) → noSecretArr l = true →
      resolve_secrets_in_config env fuel cfg = (.ok cfg, [], 0)) := by
  constructor
  · intro h
    unfold resolve_secrets_in_config
    rw [h]
  · intro l hl hobj hsec
    exact resolve_ok_of_plain env fuel cfg l hl hobj hsec

/-- A well-formed secret-free config used by witnesses. -/
def cfgPlain : List (String × JValue) :=
  [("robot_id", .str "r1"),
   ("sensors", .arr [.obj [("type", .str "sensor_b"), ("speed_km_per_h", .num 7)]])]

/-- Witness for the amended C8: a secret-free config with one mapping
sensor resolves to itself. -/
theorem C8_resolve_noop_witness :
    resolve_secrets_in_config env0 0 cfgPlain = (.ok cfgPlain, [], 0) :=
  (C8_resolve_noop env0 0 cfgPlain).2
    [.obj [("type", .str "sensor_b"), ("speed_km_per_h", .num 7)]] rfl
    (by rintro s hs
        rw [List.mem_singleton] at hs
        exact ⟨_, hs⟩)
    rfl

/-- Evaluation of a successful startup run from the results of its two
phases. -/
theorem startup_event_ok_eval (fs : FS) (env : SecretEnv) (fuel : Nat)
    (raw config : List (String × JValue)) (sl1 sl2 : List Nat) (att : Nat)
    (hv : validate_robot_config fs raw = (.ok (), sl1))
    (hr : resolve_secrets_in_config env fuel raw = (.ok config, sl2, att)) :
    startup_event fs env fuel raw =
      { state := { STATE0 with
            asset_validation_retries := sl1.length
            config_version := dictGet config "version"
            robot_id := dictGet config "robot_id"
            sensors := (dictGet config "sensors").getD (.arr [])
            initialized := true }
        result := .ok ()
        sleeps := sl1 ++ sl2
        resolverAttempts := att } := by
  unfold startup_event
  dsimp only
  rw [hv, hr]

/-! ### C6: failures leave no partial state -/

/-- C6: whenever the startup pipeline fails — in structural validation,
asset validation or secret resolution — the process state keeps
`initialized = false`, `robot_id` unset and the sensors list empty, and
the initialization-gated health endpoint answers 503. -/
theorem C6_fail_no_partial_state (fs : FS) (env : SecretEnv) (fuel : Nat)
    (raw : List (String × JValue)) (e : PipeErr)
    (h : (startup_event fs env fuel raw).result = .error e) :
    (startup_event fs env fuel raw).state.initialized = false ∧
    (startup_event fs env fuel raw).state.robot_id = none ∧
    (startup_event fs env fuel raw).state.sensors = .arr [] ∧
    health_check (startup_event fs env fuel raw).state = .error 503 := by
  unfold startup_event at h ⊢
  dsimp only at h ⊢
  cases hv : (validate_robot_config fs raw).1 with
  | error e1 =>
      dsimp only
      simp [health_check, STATE0]
  | ok u =>
      cases u
      rw [hv] at h
      dsimp only at h ⊢
      cases hr : (resolve_secrets_in_config env fuel raw).1 with
      | error e2 =>
          dsimp only
          simp [health_check, STATE0]
      | ok config =>
          rw [hr] at h
          simp at h

/-- Witness for C6: an empty raw config fails structurally and every
gated observation reports not-initialized. -/
theorem C6_fail_no_partial_state_witness :
    (startup_event fs0 env0 0 []).state.initialized = false ∧
    (startup_event fs0 env0 0 []).state.robot_id = none ∧
    (startup_event fs0 env0 0 []).state.sensors = .arr [] ∧
    health_check (startup_event fs0 env0 0 []).state = .error 503 :=
  C6_fail_no_partial_state fs0 env0 0 [] .missingRobotId rfl

/-! ### C1: phase order of the startup pipeline -/

/-- A config whose only sensor references a missing asset file and also
carries a malformed secret reference. -/
def cfgC1 : List (String × JValue) :=
  [("robot_id", .str "r1"),
   ("sensors", .arr [.obj [("type", .str "sensor_a"), ("bit_mask", .str "/missing"),
                           ("coord", .str "SECRET:onlytwo")]])]

/-- Counterexample to C1 as stated: on `cfgC1` the pipeline performs the
asset retry loop (two backoff sleeps) and fails with the asset error while
making zero resolver attempts — asset validation runs before (and here
instead of) secret resolution, although the sensor holds a `SECRET:`
value that resolution would have rejected as malformed. -/
theorem C1_phase_order_cex :
    isSecretStr (.str "SECRET:onlytwo") = true ∧
    (startup_event fs0 env0 0 cfgC1).result = .error .assetFailed ∧
    (startup_event fs0 env0 0 cfgC1).sleeps = [5, 10] ∧
    (startup_event fs0 env0 0 cfgC1).resolverAttempts = 0 :=
  ⟨rfl, rfl, rfl, rfl⟩

/-- C1 as amended: the startup pipeline runs `validate_robot_config`
first — the top-level structural checks, then, per sensor in order, the
type check immediately followed by that sensor's field and asset checks —
and secret resolution runs only if that whole phase succeeds: whenever it
fails, the run makes zero resolver attempts, its sleeps are exactly the
validation phase's asset-loop sleeps, and the state stays uninitialized;
a missing `robot_id` in particular fails before any sensor work, with no
sleeps at all. -/
theorem C1_phase_order (fs : FS) (env : SecretEnv) (fuel : Nat)
    (raw : List (String × JValue)) :
    (∀ e, (validate_robot_config fs raw).1 = .error e →
      startup_event fs env fuel raw =
        { state := { STATE0 with
              asset_validation_retries := (validate_robot_config fs raw).2.length
              errors := 1 }
          result := .error e
          sleeps := (validate_robot_config fs raw).2
          resolverAttempts := 0 }) ∧
    (dictGet raw "robot_id" = none →
      validate_robot_config fs raw = (.error .missingRobotId, [])) := by
  constructor
  · intro e he
    unfold startup_event
    dsimp only
    rw [he]
  · intro h
    unfold validate_robot_config
    rw [h]

/-- Witness for the amended C1: on `cfgC1` the validation phase fails
with the asset error after sleeps `[5, 10]`, and the whole startup run is
exactly that failure with zero resolver attempts. -/
theorem C1_phase_order_witness :
    startup_event fs0 envVarOnly 7 cfgC1 =
      { state := { STATE0 with asset_validation_retries := 2, errors := 1 }
        result := .error .assetFailed
        sleeps := [5, 10]
        resolverAttempts := 0 } :=
  (C1_phase_order fs0 envVarOnly 7 cfgC1).1 .assetFailed rfl

/-! ### C4: an empty robot_id passes the structural check -/

/-- A config with `robot_id` present but equal to the empty string. -/
def cfgC4 : List (String × JValue) :=
  [("robot_id", .str ""),
   ("sensors", .arr [.obj [("type", .str "sensor_b"), ("speed_km_per_h", .num 7)]])]

/-- Counterexample to C4: with `robot_id` present but empty the
structural check succeeds (main.py:203 only tests key presence) and the
whole pipeline initializes, storing the empty id. -/
theorem C4_empty_robot_id_cex :
    dictGet cfgC4 "robot_id" = some (.str "") ∧
    validate_robot_config fs0 cfgC4 = (.ok (), []) ∧
    (startup_event fs0 env0 0 cfgC4).result = .ok () ∧
    (startup_event fs0 env0 0 cfgC4).state.initialized = true ∧
    (startup_event fs0 env0 0 cfgC4).state.robot_id = some (.str "") := by
  have hr : resolve_secrets_in_config env0 0 cfgC4 = (.ok cfgC4, [], 0) :=
    resolve_ok_of_plain env0 0 cfgC4 _ rfl
      (by rintro s hs
          rw [List.mem_singleton] at hs
          exact ⟨_, hs⟩)
      rfl
  have hs := startup_event_ok_eval fs0 env0 0 cfgC4 cfgC4 [] [] 0 rfl hr
  rw [hs]
  exact ⟨rfl, rfl, rfl, rfl, rfl⟩

/-- `validate_sensor_config` never raises the robot-id error. -/
theorem validate_sensor_config_ne_rid (fs : FS) (d : List (String × JValue))
    (rc b : Nat) : (validate_sensor_config fs d rc b).1 ≠ .error .missingRobotId := by
  unfold validate_sensor_config
  repeat' split
  all_goals try simp
  all_goals (split <;> simp)

/-- The per-sensor checks never raise the robot-id error. -/
theorem validateSensors_ne_rid (fs : FS) :
    ∀ l, (validateSensors fs l).1 ≠ .error .missingRobotId := by
  intro l
  induction l with
  | nil => simp [validateSensors]
  | cons s rest ih =>
      intro hcontra
      unfold validateSensors at hcontra
      cases s with
      | obj d =>
          dsimp only at hcontra
          cases htv : dictGet d "type" with
          | none => rw [htv] at hcontra; simp at hcontra
          | some tv =>
              rw [htv] at hcontra
              dsimp only at hcontra
              by_cases htr : tv.truthy
              · rw [if_pos htr] at hcontra
                by_cases hvt : validSensorType tv = true
                · rw [if_pos hvt] at hcontra
                  cases hvc : (validate_sensor_config fs d 3 5).1 with
                  | error e =>
                      rw [hvc] at hcontra
                      dsimp only at hcontra
                      have he : e = .missingRobotId := by
                        injection hcontra
                      subst he
                      exact validate_sensor_config_ne_rid fs d 3 5 hvc
                  | ok u =>
                      cases u
                      rw [hvc] at hcontra
                      dsimp only at hcontra
                      exact ih hcontra
                · rw [if_neg hvt] at hcontra; simp at hcontra
              · rw [if_neg htr] at hcontra; simp at hcontra
      | null => simp at hcontra
      | bool b => simp at hcontra
      | num q => simp at hcontra
      | str s => simp at hcontra
      | arr l2 => simp at hcontra

/-- C4 as amended: the structural check raises the robot-id error exactly
when `robot_id` is absent; a present-but-empty `robot_id` passes it, and
the pipeline proceeds (as the counterexample shows, all the way to the
Initialized state). -/
theorem C4_missing_rid_iff (fs : FS) (cfg : List (String × JValue)) :
    (validate_robot_config fs cfg).1 = .error .missingRobotId ↔
      dictGet cfg "robot_id" = none := by
  unfold validate_robot_config
  cases h : dictGet cfg "robot_id" with
  | none => simp
  | some v =>
      dsimp only
      constructor
      · intro hc
        exfalso
        split at hc
        · split at hc
          · exact validateSensors_ne_rid fs _ hc
          · simp at hc
        · simp at hc
      · intro hc
        cases hc

/-! ### C3: the numeric sensor constraints are never enforced -/

/-- A config whose single `sensor_b` has a negative speed. -/
def cfgC3 : List (String × JValue) :=
  [("robot_id", .str "r1"),
   ("sensors", .arr [.obj [("type", .str "sensor_b"), ("speed_km_per_h", .num (-5))]])]

/-- C3 fails on the code: the pydantic validators encoding the per-type
numeric constraints (main.py:34-66) are declared but never invoked by the
pipeline — `validate_sensor_config` checks only field presence and asset
files — so `cfgC3` reaches the Initialized state although its sensor has
`speed_km_per_h = -5`, violating `speed >= 0` (the code's own
`validate_speed`). -/
theorem C3_numeric_constraints_unenforced :
    (startup_event fs0 env0 0 cfgC3).result = .ok () ∧
    (startup_event fs0 env0 0 cfgC3).state.initialized = true ∧
    (startup_event fs0 env0 0 cfgC3).state.sensors =
      .arr [.obj [("type", .str "sensor_b"), ("speed_km_per_h", .num (-5))]] ∧
    sensorB_speed_ok (-5) = false ∧
    sensorNumericOk (.obj [("type", .str "sensor_b"), ("speed_km_per_h", .num (-5))]) = false := by
  have hr : resolve_secrets_in_config env0 0 cfgC3 = (.ok cfgC3, [], 0) :=
    resolve_ok_of_plain env0 0 cfgC3 _ rfl
      (by rintro s hs
          rw [List.mem_singleton] at hs
          exact ⟨_, hs⟩)
      rfl
  have hs := startup_event_ok_eval fs0 env0 0 cfgC3 cfgC3 [] [] 0 rfl hr
  rw [hs]
  refine ⟨rfl, rfl, rfl, by decide, by decide⟩

end RobotFleet
